import Mathlib

/-!
Shallow embedding of the sliding-window rate limiter in
`src/hooks/useRateLimit.ts`.

Times are epoch milliseconds, modelled as `Int` (JS numbers; all values the
claims touch are integral).  The persistence substrate (`localStorage`) holds,
under the limiter's single `storageKey`, either nothing, a string that
`JSON.parse` rejects, or a string that parses to a JSON value.  We model the
parsed JSON value directly (`JsValue`): `JSON.stringify`/`JSON.parse` are the
runtime's, and the repository's own serialization decision is the object shape
`\x7b requests: number[], resetTime: number \x7d`, which `serializeRecord`
embeds.
-/

namespace RateLimit

/-- A parsed JSON value, as produced by `JSON.parse`. -/
inductive JsValue where
  | num (n : Int)
  | str (s : String)
  | bool (b : Bool)
  | null
  | arr (elems : List JsValue)
  | obj (fields : List (String × JsValue))

/-- What the string stored under the limiter's `storageKey` denotes: either a
string `JSON.parse` throws on, or one parsing to a JSON value.  An absent key
is `none` at the `Option StoredString` level. -/
inductive StoredString where
  | corrupt
  | json (v : JsValue)

/-- `RateLimitConfig` from the source (`key`, `maxRequests`, `windowMs`,
optional `storageKey`). -/
structure RateLimitConfig where
  key : String
  maxRequests : Int
  windowMs : Int
  storageKey : Option String := none
deriving DecidableEq, Repr

/-- The record manipulated by `loadFromStorage`/`saveToStorage`:
`\x7b requests, resetTime \x7d`. -/
structure RateLimitData where
  requests : List Int
  resetTime : Int
deriving DecidableEq, Repr

/-- `RateLimitState` from the source. -/
structure RateLimitState where
  canProceed : Bool
  remainingRequests : Int
  resetTime : Int
  timeUntilReset : Int
deriving DecidableEq, Repr

/-- JS property access `v[k]` on a parsed JSON value: field lookup on an
object, `undefined` (`none`) otherwise.  (Objects produced by `JSON.parse`
have no duplicate keys, so first-match lookup is adequate.) -/
def jsGet (v : JsValue) (k : String) : Option JsValue :=
  match v with
  | .obj fields => fields.lookup k
  | _ => none

/-- The body of the `try` block of `loadFromStorage`, given the parsed JSON
value `data`.  `none` models a thrown exception (caught by the source's
`catch`), and also the shapes whose resulting record would carry a
non-numeric `resetTime`, which `RateLimitData` cannot represent; no claim
concerns those shapes.  The source first tests `now >= data.resetTime`
(false under JS semantics when `resetTime` is not a number), then filters
`data.requests` by `now - timestamp < windowMs` (non-numeric entries compare
as NaN and are dropped; `.filter` on a non-array throws). -/
def parseRecord (v : JsValue) (now : Int) (windowMs : Int) : Option RateLimitData :=
  if (match jsGet v "resetTime" with
      | some (.num rt) => decide (rt ≤ now)
      | _ => false) then
    some ⟨[], now + windowMs⟩
  else
    match jsGet v "requests", jsGet v "resetTime" with
    | some (.arr xs), some (.num rt) =>
        some ⟨xs.filterMap (fun x =>
          match x with
          | .num t => if now - t < windowMs then some t else none
          | _ => none), rt⟩
    | _, _ => none

/-- `loadFromStorage`: read the cell; on absence, parse failure or a caught
exception, fall through to the empty record with `resetTime = now + windowMs`. -/
def loadFromStorage (cell : Option StoredString) (now : Int)
    (cfg : RateLimitConfig) : RateLimitData :=
  match cell with
  | some (.json v) =>
    match parseRecord v now cfg.windowMs with
    | some data => data
    | none => ⟨[], now + cfg.windowMs⟩
  | _ => ⟨[], now + cfg.windowMs⟩

/-- The JSON value `JSON.stringify` receives in `saveToStorage`:
`\x7b requests, resetTime \x7d`. -/
def serializeRecord (requests : List Int) (resetTime : Int) : JsValue :=
  .obj [("requests", .arr (requests.map .num)), ("resetTime", .num resetTime)]

/-- `saveToStorage`: overwrite the cell, swallowing a failed write
(`writeOk = false` models `localStorage.setItem` throwing; the `catch` only
logs, so the cell is simply left unchanged and no error propagates). -/
def saveToStorage (cell : Option StoredString) (writeOk : Bool)
    (requests : List Int) (resetTime : Int) : Option StoredString :=
  if writeOk then some (.json (serializeRecord requests resetTime)) else cell

/-- `updateState`: recompute the derived `RateLimitState` from storage and the
current time. -/
def updateState (cell : Option StoredString) (now : Int)
    (cfg : RateLimitConfig) : RateLimitState :=
  let data := loadFromStorage cell now cfg
  let remainingRequests := max 0 (cfg.maxRequests - (data.requests.length : Int))
  let timeUntilReset := max 0 (data.resetTime - now)
  { canProceed := decide (0 < remainingRequests)
    remainingRequests := remainingRequests
    resetTime := data.resetTime
    timeUntilReset := timeUntilReset }

/-- The outcome of one `recordRequest` call: the returned boolean, the cell
after the call, and the state passed to `setState`. -/
structure RecordResult where
  allowed : Bool
  cell : Option StoredString
  state : RateLimitState

/-- `recordRequest`: load, reject if `requests.length >= maxRequests`,
otherwise append `now`, save, and refresh the derived state. -/
def recordRequest (cell : Option StoredString) (now : Int)
    (cfg : RateLimitConfig) (writeOk : Bool) : RecordResult :=
  let data := loadFromStorage cell now cfg
  if cfg.maxRequests ≤ (data.requests.length : Int) then
    { allowed := false, cell := cell, state := updateState cell now cfg }
  else
    let newRequests := data.requests ++ [now]
    let newCell := saveToStorage cell writeOk newRequests data.resetTime
    { allowed := true, cell := newCell, state := updateState newCell now cfg }

/-- Run `recordRequest` once per listed time, in order, threading the cell;
returns the list of boolean results and the final cell. -/
def runRequests (cell : Option StoredString) (cfg : RateLimitConfig)
    (writeOk : Bool) (times : List Int) : List Bool × Option StoredString :=
  match times with
  | [] => ([], cell)
  | t :: ts =>
    let r := recordRequest cell t cfg writeOk
    let rest := runRequests r.cell cfg writeOk ts
    (r.allowed :: rest.1, rest.2)

/-- A cell holding a well-shaped persisted record. -/
def validCell (requests : List Int) (resetTime : Int) : Option StoredString :=
  some (.json (serializeRecord requests resetTime))

end RateLimit

namespace RateLimit

theorem jsGet_serialize_requests (rs : List Int) (rt : Int) :
    jsGet (serializeRecord rs rt) "requests" = some (.arr (rs.map .num)) := rfl

theorem jsGet_serialize_resetTime (rs : List Int) (rt : Int) :
    jsGet (serializeRecord rs rt) "resetTime" = some (.num rt) := rfl

theorem filterMap_num (rs : List Int) (now W : Int) :
    (rs.map JsValue.num).filterMap (fun x =>
      match x with
      | .num t => if now - t < W then some t else none
      | _ => none) = rs.filter (fun t => decide (now - t < W)) := by
  induction rs with
  | nil => rfl
  | cons a l ih =>
    simp only [List.map_cons, List.filterMap_cons, List.filter_cons]
    by_cases h : now - a < W
    · simp [h, ih]
    · simp [h, ih]

theorem parseRecord_serialize_lt (rs : List Int) (rt now W : Int) (h : now < rt) :
    parseRecord (serializeRecord rs rt) now W
      = some ⟨rs.filter (fun t => decide (now - t < W)), rt⟩ := by
  unfold parseRecord
  rw [jsGet_serialize_requests, jsGet_serialize_resetTime]
  simp only [decide_eq_true_eq]
  rw [if_neg (by omega)]
  rw [filterMap_num]

theorem parseRecord_serialize_ge (rs : List Int) (rt now W : Int) (h : rt ≤ now) :
    parseRecord (serializeRecord rs rt) now W = some ⟨[], now + W⟩ := by
  unfold parseRecord
  rw [jsGet_serialize_resetTime]
  simp [h]

end RateLimit

namespace RateLimit

theorem loadFromStorage_validCell_lt (rs : List Int) (rt now : Int)
    (cfg : RateLimitConfig) (h : now < rt) :
    loadFromStorage (validCell rs rt) now cfg
      = ⟨rs.filter (fun t => decide (now - t < cfg.windowMs)), rt⟩ := by
  show (match parseRecord (serializeRecord rs rt) now cfg.windowMs with
    | some data => data
    | none => ⟨[], now + cfg.windowMs⟩) = _
  rw [parseRecord_serialize_lt _ _ _ _ h]

theorem loadFromStorage_validCell_ge (rs : List Int) (rt now : Int)
    (cfg : RateLimitConfig) (h : rt ≤ now) :
    loadFromStorage (validCell rs rt) now cfg = ⟨[], now + cfg.windowMs⟩ := by
  show (match parseRecord (serializeRecord rs rt) now cfg.windowMs with
    | some data => data
    | none => ⟨[], now + cfg.windowMs⟩) = _
  rw [parseRecord_serialize_ge _ _ _ _ h]

theorem loadFromStorage_none (now : Int) (cfg : RateLimitConfig) :
    loadFromStorage none now cfg = ⟨[], now + cfg.windowMs⟩ := rfl

theorem loadFromStorage_corrupt (now : Int) (cfg : RateLimitConfig) :
    loadFromStorage (some .corrupt) now cfg = ⟨[], now + cfg.windowMs⟩ := rfl

theorem filter_window_all (rs : List Int) (now W : Int)
    (h : ∀ t ∈ rs, now - t < W) :
    rs.filter (fun t => decide (now - t < W)) = rs := by
  rw [List.filter_eq_self]
  intro a ha
  simpa using h a ha

/-- One successful `recordRequest` step on a reconciled cell. -/
theorem recordRequest_success_step (acc : List Int) (t0 now : Int)
    (cfg : RateLimitConfig)
    (hacc : ∀ a ∈ acc, t0 ≤ a)
    (hwin : now < t0 + cfg.windowMs)
    (hcap : (acc.length : Int) < cfg.maxRequests) :
    recordRequest (validCell acc (t0 + cfg.windowMs)) now cfg true
      = { allowed := true,
          cell := validCell (acc ++ [now]) (t0 + cfg.windowMs),
          state := updateState (validCell (acc ++ [now]) (t0 + cfg.windowMs)) now cfg } := by
  unfold recordRequest
  rw [loadFromStorage_validCell_lt _ _ _ _ hwin]
  rw [filter_window_all _ _ _ (fun a ha => by have := hacc a ha; omega)]
  dsimp only
  rw [if_neg (by omega)]
  rfl

/-- A run of `recordRequest` calls that all fit in the current window and its
capacity all succeed, appending their times in order. -/
theorem runRequests_success (cfg : RateLimitConfig) (t0 : Int)
    (ts : List Int) (acc : List Int)
    (hacc : ∀ a ∈ acc, t0 ≤ a)
    (hts : ∀ t ∈ ts, t0 ≤ t ∧ t < t0 + cfg.windowMs)
    (hcap : (acc.length : Int) + ts.length ≤ cfg.maxRequests) :
    runRequests (validCell acc (t0 + cfg.windowMs)) cfg true ts
      = (List.replicate ts.length true, validCell (acc ++ ts) (t0 + cfg.windowMs)) := by
  induction ts generalizing acc with
  | nil => simp [runRequests]
  | cons t ts ih =>
    have ht := hts t (by simp)
    have hstep := recordRequest_success_step acc t0 t cfg hacc ht.2
      (by simp at hcap; omega)
    simp only [runRequests, hstep]
    rw [ih (acc ++ [t])
      (by intro a ha; rcases List.mem_append.mp ha with h | h
          · exact hacc a h
          · simp at h; omega)
      (fun x hx => hts x (by simp [hx]))
      (by simp at hcap ⊢; omega)]
    simp [List.replicate_succ]

end RateLimit

namespace RateLimit

/-- A rejected `recordRequest` call: state refreshed, cell untouched. -/
theorem recordRequest_reject (cell : Option StoredString) (now : Int)
    (cfg : RateLimitConfig) (writeOk : Bool)
    (h : cfg.maxRequests ≤ ((loadFromStorage cell now cfg).requests.length : Int)) :
    recordRequest cell now cfg writeOk
      = { allowed := false, cell := cell, state := updateState cell now cfg } := by
  unfold recordRequest
  rw [if_pos h]

/-- The first `recordRequest` on an absent cell records `now` and opens a
window ending at `now + windowMs`. -/
theorem recordRequest_empty (now : Int) (cfg : RateLimitConfig) (writeOk : Bool)
    (h : 0 < cfg.maxRequests) :
    recordRequest none now cfg writeOk
      = { allowed := true,
          cell := saveToStorage none writeOk [now] (now + cfg.windowMs),
          state := updateState (saveToStorage none writeOk [now] (now + cfg.windowMs)) now cfg } := by
  unfold recordRequest
  rw [loadFromStorage_none]
  dsimp only
  rw [if_neg (by simp; omega)]
  rfl

theorem runRequests_append (cell : Option StoredString) (cfg : RateLimitConfig)
    (writeOk : Bool) (l1 l2 : List Int) :
    runRequests cell cfg writeOk (l1 ++ l2)
      = ((runRequests cell cfg writeOk l1).1
            ++ (runRequests (runRequests cell cfg writeOk l1).2 cfg writeOk l2).1,
         (runRequests (runRequests cell cfg writeOk l1).2 cfg writeOk l2).2) := by
  induction l1 generalizing cell with
  | nil => rfl
  | cons t ts ih => simp [runRequests, ih]

theorem length_filter_window_mono (rs : List Int) (now now' W : Int) (h : now ≤ now') :
    (rs.filter (fun t => decide (now' - t < W))).length
      ≤ (rs.filter (fun t => decide (now - t < W))).length :=
  (List.monotone_filter_right rs
    (fun a ha => by simp only [decide_eq_true_eq] at ha ⊢; omega)).length_le

end RateLimit

namespace RateLimit

/-- C4: if the stored string is absent or unparsable, refresh raises no error
and returns `canProceed = true`, `remainingRequests = maxRequests`,
`resetTime = now + windowMs` (the record is treated as empty). -/
theorem claim_c4 (cfg : RateLimitConfig) (cell : Option StoredString) (now : Int)
    (hpos : 0 < cfg.maxRequests)
    (hcell : cell = none ∨ cell = some .corrupt) :
    updateState cell now cfg
      = { canProceed := true, remainingRequests := cfg.maxRequests,
          resetTime := now + cfg.windowMs,
          timeUntilReset := max 0 cfg.windowMs } := by
  have hload : loadFromStorage cell now cfg = ⟨[], now + cfg.windowMs⟩ := by
    rcases hcell with h | h <;> subst h
    · exact loadFromStorage_none now cfg
    · exact loadFromStorage_corrupt now cfg
  unfold updateState
  rw [hload]
  dsimp only
  simp only [List.length_nil, Int.natCast_zero, sub_zero]
  rw [max_eq_right hpos.le]
  congr 1
  · simp [hpos]
  · omega

/-- C5: window rollover — for any persisted record, once `now` reaches
`resetTime` the next load reports an empty timestamp list with
`resetTime = now + windowMs`, refresh reports `remainingRequests = maxRequests`,
and the following `recordRequest` in the new window returns `true`. -/
theorem claim_c5 (cfg : RateLimitConfig) (rs : List Int) (rt now : Int)
    (hpos : 0 < cfg.maxRequests) (h : rt ≤ now) :
    loadFromStorage (validCell rs rt) now cfg = ⟨[], now + cfg.windowMs⟩ ∧
    (updateState (validCell rs rt) now cfg).remainingRequests = cfg.maxRequests ∧
    (updateState (validCell rs rt) now cfg).resetTime = now + cfg.windowMs ∧
    (recordRequest (validCell rs rt) now cfg true).allowed = true := by
  have hload := loadFromStorage_validCell_ge rs rt now cfg h
  refine ⟨hload, ?_, ?_, ?_⟩
  · unfold updateState
    rw [hload]
    dsimp only
    simp only [List.length_nil, Int.natCast_zero, sub_zero]
    exact max_eq_right hpos.le
  · unfold updateState
    rw [hload]
  · unfold recordRequest
    rw [hload]
    dsimp only
    rw [if_neg (by simp; omega)]

/-- C7: a configuration with `maxRequests <= 0` always rejects — every
`recordRequest` returns `false` and leaves the cell alone, and the derived
state has `remainingRequests = 0` and `canProceed = false`, for every
persisted cell. -/
theorem claim_c7 (cfg : RateLimitConfig) (cell : Option StoredString)
    (now : Int) (writeOk : Bool) (h : cfg.maxRequests ≤ 0) :
    (recordRequest cell now cfg writeOk).allowed = false ∧
    (recordRequest cell now cfg writeOk).cell = cell ∧
    (updateState cell now cfg).remainingRequests = 0 ∧
    (updateState cell now cfg).canProceed = false := by
  have hlen : (0 : Int) ≤ ((loadFromStorage cell now cfg).requests.length : Int) :=
    Int.natCast_nonneg _
  have hreject := recordRequest_reject cell now cfg writeOk (by omega)
  have hmax : max 0 (cfg.maxRequests - ((loadFromStorage cell now cfg).requests.length : Int)) = 0 :=
    max_eq_left (by omega)
  refine ⟨by rw [hreject], by rw [hreject], ?_, ?_⟩
  · unfold updateState
    dsimp only
    rw [hmax]
  · unfold updateState
    dsimp only
    rw [hmax]
    rfl

/-- C8: for a persisted record read before its `resetTime`, the loaded record
keeps exactly the stored timestamps `t` with `now - t < windowMs` (at the same
`resetTime`); every timestamp at least one window old is dropped. -/
theorem claim_c8 (cfg : RateLimitConfig) (rs : List Int) (rt now : Int)
    (h : now < rt) :
    (loadFromStorage (validCell rs rt) now cfg).requests
        = rs.filter (fun t => decide (now - t < cfg.windowMs)) ∧
    (loadFromStorage (validCell rs rt) now cfg).resetTime = rt ∧
    ∀ t ∈ (loadFromStorage (validCell rs rt) now cfg).requests,
      now - t < cfg.windowMs := by
  have hload := loadFromStorage_validCell_lt rs rt now cfg h
  refine ⟨by rw [hload], by rw [hload], ?_⟩
  intro t ht
  rw [hload] at ht
  have := (List.mem_filter.mp ht).2
  simpa using this

/-- C9: round-trip — saving a valid record and loading it back before window
expiry, with all timestamps still inside the window, reproduces the record
exactly (same timestamps, same `resetTime`). -/
theorem claim_c9 (cfg : RateLimitConfig) (cell : Option StoredString)
    (rs : List Int) (rt now : Int) (h : now < rt)
    (hwin : ∀ t ∈ rs, now - t < cfg.windowMs) :
    loadFromStorage (saveToStorage cell true rs rt) now cfg = ⟨rs, rt⟩ := by
  show loadFromStorage (validCell rs rt) now cfg = _
  rw [loadFromStorage_validCell_lt _ _ _ _ h, filter_window_all _ _ _ hwin]

/-- C10: a rejected `recordRequest` (loaded timestamp list already at or over
`maxRequests`) performs no write — the stored value is identical before and
after the call. -/
theorem claim_c10 (cfg : RateLimitConfig) (cell : Option StoredString)
    (now : Int) (writeOk : Bool)
    (h : cfg.maxRequests ≤ ((loadFromStorage cell now cfg).requests.length : Int)) :
    (recordRequest cell now cfg writeOk).cell = cell ∧
    (recordRequest cell now cfg writeOk).allowed = false := by
  rw [recordRequest_reject cell now cfg writeOk h]
  exact ⟨rfl, rfl⟩

end RateLimit

namespace RateLimit

theorem saveToStorage_true (cell : Option StoredString) (rs : List Int) (rt : Int) :
    saveToStorage cell true rs rt = validCell rs rt := rfl

/-- C1: from empty persisted history with `maxRequests = N > 0`, `N`
`recordRequest` calls within one window all return `true` and the `(N+1)`-th
call in the same window returns `false`. -/
theorem claim_c1 (cfg : RateLimitConfig) (N : Nat) (hN : cfg.maxRequests = (N : Int))
    (hpos : 0 < N) (t0 tl : Int) (mid : List Int)
    (hmid : mid.length = N - 1)
    (hin : ∀ t ∈ mid, t0 ≤ t ∧ t < t0 + cfg.windowMs)
    (htl0 : t0 ≤ tl) (htl1 : tl < t0 + cfg.windowMs) :
    (runRequests none cfg true (t0 :: (mid ++ [tl]))).1
      = List.replicate N true ++ [false] := by
  cases N with
  | zero => exact absurd hpos (by omega)
  | succ M =>
  have hposI : 0 < cfg.maxRequests := by rw [hN]; exact_mod_cast Nat.succ_pos M
  have hmid' : mid.length = M := by omega
  have hfirst := recordRequest_empty t0 cfg true hposI
  simp only [runRequests, hfirst]
  rw [saveToStorage_true, runRequests_append]
  rw [runRequests_success cfg t0 mid [t0]
    (by intro a ha; simp at ha; omega)
    hin
    (by rw [hN]; simp [hmid']; omega)]
  have hload := loadFromStorage_validCell_lt ([t0] ++ mid) (t0 + cfg.windowMs) tl cfg htl1
  rw [filter_window_all _ _ _
    (by intro a ha; rcases List.mem_append.mp ha with h | h
        · simp at h; omega
        · have := hin a h; omega)] at hload
  have hreject := recordRequest_reject (validCell ([t0] ++ mid) (t0 + cfg.windowMs)) tl cfg true
    (by rw [hload, hN]; simp [hmid'])
  simp only [runRequests, hreject]
  simp [hmid', List.replicate_succ]

end RateLimit

namespace RateLimit

/-- C2 as stated is false: with the persisted record `requests = [0]`,
`resetTime = 100` and config `maxRequests = 3`, `windowMs = 100`, refreshing
at `now = 50` and again at `now = 150` (no `recordRequest` in between) changes
`resetTime` from `100` to `250` and `remainingRequests` from `2` to `3` — the
window rollover recomputes both.  Even before rollover `remainingRequests` can
change: with `requests = [0]`, `resetTime = 1000`, refreshing at `now = 50`
and then at `now = 150` (both before `resetTime`) moves `remainingRequests`
from `2` to `3` because the stale timestamp leaves the window. -/
theorem claim_c2_counterexample :
    (updateState (validCell [0] 100) 50 ⟨"k", 3, 100, none⟩).resetTime = 100 ∧
    (updateState (validCell [0] 100) 150 ⟨"k", 3, 100, none⟩).resetTime = 250 ∧
    (updateState (validCell [0] 100) 50 ⟨"k", 3, 100, none⟩).remainingRequests = 2 ∧
    (updateState (validCell [0] 100) 150 ⟨"k", 3, 100, none⟩).remainingRequests = 3 ∧
    (updateState (validCell [0] 1000) 50 ⟨"k", 3, 100, none⟩).remainingRequests = 2 ∧
    (updateState (validCell [0] 1000) 150 ⟨"k", 3, 100, none⟩).remainingRequests = 3 := by
  refine ⟨rfl, rfl, rfl, rfl, rfl, rfl⟩

/-- C2 amended: for a persisted valid record, at times before the record's
`resetTime`, refresh reports the same `resetTime` every time,
`remainingRequests` never decreases as time advances (it can only grow, as
stale timestamps leave the window), and `timeUntilReset` is nonnegative and
nonincreasing; refresh is a pure read of storage. -/
theorem claim_c2_amended (cfg : RateLimitConfig) (rs : List Int)
    (rt now now' : Int) (h1 : now ≤ now') (h2 : now' < rt) :
    (updateState (validCell rs rt) now cfg).resetTime = rt ∧
    (updateState (validCell rs rt) now' cfg).resetTime = rt ∧
    (updateState (validCell rs rt) now cfg).remainingRequests
      ≤ (updateState (validCell rs rt) now' cfg).remainingRequests ∧
    (updateState (validCell rs rt) now' cfg).timeUntilReset
      ≤ (updateState (validCell rs rt) now cfg).timeUntilReset ∧
    0 ≤ (updateState (validCell rs rt) now' cfg).timeUntilReset := by
  have hload := loadFromStorage_validCell_lt rs rt now cfg (by omega)
  have hload' := loadFromStorage_validCell_lt rs rt now' cfg h2
  have hlen := length_filter_window_mono rs now now' cfg.windowMs h1
  unfold updateState
  rw [hload, hload']
  dsimp only
  refine ⟨rfl, rfl, by omega, by omega, by omega⟩

/-- C3 as stated is false: with config `maxRequests = 3`, `windowMs = 100`,
empty history and a failing persistence write, `recordRequest` still returns
`true` and swallows the error, but the refreshed state re-reads the unchanged
storage: `remainingRequests` stays `3` instead of reflecting the attempted
increment (`2`). -/
theorem claim_c3_counterexample :
    (recordRequest none 0 ⟨"k", 3, 100, none⟩ false).allowed = true ∧
    (recordRequest none 0 ⟨"k", 3, 100, none⟩ false).state.remainingRequests = 3 ∧
    ¬ (recordRequest none 0 ⟨"k", 3, 100, none⟩ false).state.remainingRequests = 2 := by
  refine ⟨rfl, rfl, by decide⟩

/-- C3 amended: for every state with remaining capacity, if the persistence
write fails, no error propagates and `recordRequest` still returns `true`, but
the stored value is unchanged and the derived state is recomputed from the
unchanged persisted record — it does not reflect the attempted increment. -/
theorem claim_c3_amended (cfg : RateLimitConfig) (cell : Option StoredString)
    (now : Int)
    (h : ((loadFromStorage cell now cfg).requests.length : Int) < cfg.maxRequests) :
    (recordRequest cell now cfg false).allowed = true ∧
    (recordRequest cell now cfg false).cell = cell ∧
    (recordRequest cell now cfg false).state = updateState cell now cfg := by
  unfold recordRequest
  rw [if_neg (by omega)]
  exact ⟨rfl, rfl, rfl⟩

/-- C6 as stated is false on its second half: with config `maxRequests = 1`,
`windowMs = 100` and the persisted record `requests = [0, 0]` (length `2 > 1`),
`resetTime = 1000`, a read at `now = 500` drops both stale timestamps, so
`remainingRequests = 1` and `canProceed = true` rather than the claimed
clamp to `0` with `canProceed = false`. -/
theorem claim_c6_counterexample :
    (2 : Int) > (⟨"k", 1, 100, none⟩ : RateLimitConfig).maxRequests ∧
    ([0, 0] : List Int).length = 2 ∧
    (updateState (validCell [0, 0] 1000) 500 ⟨"k", 1, 100, none⟩).remainingRequests = 1 ∧
    (updateState (validCell [0, 0] 1000) 500 ⟨"k", 1, 100, none⟩).canProceed = true := by
  refine ⟨by decide, rfl, rfl, rfl⟩

end RateLimit

namespace RateLimit

/-- C6 amended: after `k` successful `recordRequest` calls within one window
(`k <= N`), `remainingRequests` equals `N - k`; and a persisted record whose
timestamps are all still inside the window but whose length exceeds `N` is
read back with `remainingRequests` clamped to `0` and `canProceed = false` —
never negative and never an error.  (Without the in-window condition the
clamp can be defeated: stale timestamps are filtered out on read, as the
counterexample shows.) -/
theorem claim_c6_amended (cfg : RateLimitConfig) (N : Nat)
    (hN : cfg.maxRequests = (N : Int))
    (t0 now : Int) (rest : List Int)
    (hk : rest.length + 1 ≤ N)
    (hrest : ∀ t ∈ rest, t0 ≤ t ∧ t < t0 + cfg.windowMs)
    (hnow0 : t0 ≤ now) (hnow1 : now < t0 + cfg.windowMs)
    (rs2 : List Int) (rt2 now2 : Int)
    (hlong : (N : Int) < (rs2.length : Int))
    (hrt2 : now2 < rt2) (hwin2 : ∀ t ∈ rs2, now2 - t < cfg.windowMs) :
    (updateState none now cfg).remainingRequests = (N : Int) ∧
    (runRequests none cfg true (t0 :: rest)).1
      = List.replicate (rest.length + 1) true ∧
    (updateState (runRequests none cfg true (t0 :: rest)).2 now cfg).remainingRequests
      = (N : Int) - ((rest.length : Int) + 1) ∧
    (updateState (validCell rs2 rt2) now2 cfg).remainingRequests = 0 ∧
    (updateState (validCell rs2 rt2) now2 cfg).canProceed = false := by
  have hposI : 0 < cfg.maxRequests := by rw [hN]; exact_mod_cast by omega
  have hfirst := recordRequest_empty t0 cfg true hposI
  have hrun := runRequests_success cfg t0 rest [t0]
    (by intro a ha; simp at ha; omega)
    hrest
    (by rw [hN]; simp; omega)
  have hload2 := loadFromStorage_validCell_lt rs2 rt2 now2 cfg hrt2
  rw [filter_window_all _ _ _ hwin2] at hload2
  refine ⟨?_, ?_, ?_, ?_, ?_⟩
  · unfold updateState
    rw [loadFromStorage_none]
    dsimp only
    simp only [List.length_nil, Int.natCast_zero, sub_zero]
    rw [hN, max_eq_right (by positivity)]
  · simp only [runRequests, hfirst]
    rw [saveToStorage_true, hrun]
    simp [List.replicate_succ]
  · simp only [runRequests, hfirst]
    rw [saveToStorage_true, hrun]
    dsimp only
    have hloadf := loadFromStorage_validCell_lt ([t0] ++ rest) (t0 + cfg.windowMs) now cfg hnow1
    rw [filter_window_all _ _ _
      (by intro a ha; rcases List.mem_append.mp ha with h | h
          · simp at h; omega
          · have := hrest a h; omega)] at hloadf
    unfold updateState
    rw [hloadf]
    dsimp only
    rw [hN]
    simp only [List.length_append, List.length_cons, List.length_nil]
    push_cast
    omega
  · unfold updateState
    rw [hload2]
    dsimp only
    rw [hN, max_eq_left (by omega)]
  · unfold updateState
    rw [hload2]
    dsimp only
    rw [hN, max_eq_left (by omega)]
    rfl

end RateLimit

namespace RateLimit

theorem claim_c1_witness :
    (runRequests none ⟨"k", 2, 100, none⟩ true (0 :: ([10] ++ [20]))).1
      = List.replicate 2 true ++ [false] :=
  claim_c1 ⟨"k", 2, 100, none⟩ 2 (by decide) (by decide) 0 20 [10] rfl
    (by decide) (by decide) (by decide)

theorem claim_c2_witness :
    (updateState (validCell [0] 100) 20 ⟨"k", 3, 100, none⟩).resetTime = 100 ∧
    (updateState (validCell [0] 100) 50 ⟨"k", 3, 100, none⟩).resetTime = 100 ∧
    (updateState (validCell [0] 100) 20 ⟨"k", 3, 100, none⟩).remainingRequests
      ≤ (updateState (validCell [0] 100) 50 ⟨"k", 3, 100, none⟩).remainingRequests ∧
    (updateState (validCell [0] 100) 50 ⟨"k", 3, 100, none⟩).timeUntilReset
      ≤ (updateState (validCell [0] 100) 20 ⟨"k", 3, 100, none⟩).timeUntilReset ∧
    0 ≤ (updateState (validCell [0] 100) 50 ⟨"k", 3, 100, none⟩).timeUntilReset :=
  claim_c2_amended ⟨"k", 3, 100, none⟩ [0] 100 20 50 (by decide) (by decide)

theorem claim_c3_witness :
    (recordRequest none 7 ⟨"k", 3, 100, none⟩ false).allowed = true ∧
    (recordRequest none 7 ⟨"k", 3, 100, none⟩ false).cell = none ∧
    (recordRequest none 7 ⟨"k", 3, 100, none⟩ false).state
      = updateState none 7 ⟨"k", 3, 100, none⟩ :=
  claim_c3_amended ⟨"k", 3, 100, none⟩ none 7 (by decide)

theorem claim_c4_witness :
    updateState (some .corrupt) 5 ⟨"k", 3, 100, none⟩
      = { canProceed := true, remainingRequests := 3,
          resetTime := 5 + 100, timeUntilReset := max 0 100 } :=
  claim_c4 ⟨"k", 3, 100, none⟩ (some .corrupt) 5 (by decide) (Or.inr rfl)

theorem claim_c5_witness :
    loadFromStorage (validCell [1, 2] 50) 60 ⟨"k", 3, 100, none⟩
      = ⟨[], 60 + 100⟩ ∧
    (updateState (validCell [1, 2] 50) 60 ⟨"k", 3, 100, none⟩).remainingRequests = 3 ∧
    (updateState (validCell [1, 2] 50) 60 ⟨"k", 3, 100, none⟩).resetTime = 60 + 100 ∧
    (recordRequest (validCell [1, 2] 50) 60 ⟨"k", 3, 100, none⟩ true).allowed = true :=
  claim_c5 ⟨"k", 3, 100, none⟩ [1, 2] 50 60 (by decide) (by decide)

theorem claim_c6_witness :
    (updateState none 50 ⟨"k", 3, 100, none⟩).remainingRequests = ((3 : Nat) : Int) ∧
    (runRequests none ⟨"k", 3, 100, none⟩ true (0 :: [10])).1
      = List.replicate ([10].length + 1) true ∧
    (updateState (runRequests none ⟨"k", 3, 100, none⟩ true (0 :: [10])).2 50
        ⟨"k", 3, 100, none⟩).remainingRequests
      = ((3 : Nat) : Int) - ((([10] : List Int).length : Int) + 1) ∧
    (updateState (validCell [0, 10, 20, 30] 60) 50 ⟨"k", 3, 100, none⟩).remainingRequests = 0 ∧
    (updateState (validCell [0, 10, 20, 30] 60) 50 ⟨"k", 3, 100, none⟩).canProceed = false :=
  claim_c6_amended ⟨"k", 3, 100, none⟩ 3 (by decide) 0 50 [10] (by decide)
    (by decide) (by decide) (by decide) [0, 10, 20, 30] 60 50
    (by decide) (by decide) (by decide)

theorem claim_c7_witness :
    (recordRequest (validCell [5] 100) 50 ⟨"k", 0, 100, none⟩ true).allowed = false ∧
    (recordRequest (validCell [5] 100) 50 ⟨"k", 0, 100, none⟩ true).cell
      = validCell [5] 100 ∧
    (updateState (validCell [5] 100) 50 ⟨"k", 0, 100, none⟩).remainingRequests = 0 ∧
    (updateState (validCell [5] 100) 50 ⟨"k", 0, 100, none⟩).canProceed = false :=
  claim_c7 ⟨"k", 0, 100, none⟩ (validCell [5] 100) 50 true (by decide)

theorem claim_c8_witness :
    (loadFromStorage (validCell [-100, 40] 1000) 50 ⟨"k", 3, 100, none⟩).requests
        = ([-100, 40] : List Int).filter (fun t => decide (50 - t < 100)) ∧
    (loadFromStorage (validCell [-100, 40] 1000) 50 ⟨"k", 3, 100, none⟩).resetTime = 1000 ∧
    ∀ t ∈ (loadFromStorage (validCell [-100, 40] 1000) 50 ⟨"k", 3, 100, none⟩).requests,
      50 - t < (100 : Int) :=
  claim_c8 ⟨"k", 3, 100, none⟩ [-100, 40] 1000 50 (by decide)

theorem claim_c9_witness :
    loadFromStorage (saveToStorage none true [1, 2] 100) 50 ⟨"k", 3, 100, none⟩
      = ⟨[1, 2], 100⟩ :=
  claim_c9 ⟨"k", 3, 100, none⟩ none [1, 2] 100 50 (by decide) (by decide)

theorem claim_c10_witness :
    (recordRequest (validCell [10] 100) 50 ⟨"k", 1, 100, none⟩ true).cell
      = validCell [10] 100 ∧
    (recordRequest (validCell [10] 100) 50 ⟨"k", 1, 100, none⟩ true).allowed = false :=
  claim_c10 ⟨"k", 1, 100, none⟩ (validCell [10] 100) 50 true (by decide)

end RateLimit
